import Mathlib

/-!
Verification of the naitai habit-tracking app's auth/session layer and habit API
against its natural-language specification.

The client state lives in a zustand store (frontend/src/stores/authStore.ts).
A zustand `set` call with a partial record merges the given fields into the
current state object and leaves every other field unchanged; we model the store
state as a record carrying all fields that the repository's code and test suite
ever place in it — including `emailVerificationRequired` and
`pendingVerificationEmail`, which the store tests install via `setState` and
which the second AuthProvider variant manipulates — and model each `set` call
as a record update touching exactly the fields the source passes to `set`.

Provider calls (`authApi.*`, `supabase.*`) are external; each async operation is
split into the synchronous state update performed before the `await` (the
`...Start` function) and the synchronous update performed when the awaited
promise resolves or rejects (the `...Resolve` / `...Reject` functions), with
the provider's outcome passed in as data.
-/

namespace Naitai

/-- Session principal as the client sees it (Supabase `User`, fields used by the
repository: `id`, `email`). -/
structure User where
  id : String
  email : String
deriving DecidableEq, Repr

/-- Supabase `Session`: opaque bearer credential; the code only reads
`session.user` (plus treats the whole value as opaque). -/
structure Session where
  accessToken : String
  user : User
deriving DecidableEq, Repr

/-- The `session?.user ?? null` idiom used by both AuthProvider variants. -/
def sessionUser : Option Session → Option User
  | none => none
  | some s => some s.user

/-- Full store state: the four fields declared by
frontend/src/stores/authStore.ts plus the two email-verification fields that
the store tests and the second AuthProvider variant keep in the same store
object (zustand merges unknown fields in). -/
structure AuthState where
  user : Option User
  session : Option Session
  loading : Bool
  initialized : Bool
  emailVerificationRequired : Bool
  pendingVerificationEmail : Option String
deriving DecidableEq, Repr

/-- Initial store state, authStore.ts lines 30-33 (`loading` starts `true`);
the verification fields start absent, i.e. falsy. -/
def initialAuthState : AuthState :=
  { user := none
  , session := none
  , loading := true
  , initialized := false
  , emailVerificationRequired := false
  , pendingVerificationEmail := none }

/-- Payload of a resolved `authApi.signIn` / `authApi.signUp` call:
`{ data: { user, session } }`, either of which may be null. -/
structure AuthResult where
  user : Option User
  session : Option Session
deriving DecidableEq, Repr

/-- signIn, before the await: `set({ loading: true })`. -/
def signInStart (s : AuthState) : AuthState :=
  { s with loading := true }

/-- signIn, provider resolved: `set({ user: data.user, session: data.session,
loading: false })` (authStore.ts lines 40-44). -/
def signInResolve (s : AuthState) (d : AuthResult) : AuthState :=
  { s with user := d.user, session := d.session, loading := false }

/-- signIn, provider rejected: `set({ loading: false })` then rethrow. -/
def signInReject (s : AuthState) : AuthState :=
  { s with loading := false }

/-- signUp, before the await: `set({ loading: true })`. -/
def signUpStart (s : AuthState) : AuthState :=
  { s with loading := true }

/-- signUp as written in frontend/src/stores/authStore.ts lines 54-59: the
resolved user and session are stored verbatim; no email-verification handling
exists in this variant. -/
def signUpResolve (s : AuthState) (d : AuthResult) : AuthState :=
  { s with user := d.user, session := d.session, loading := false }

/-- signUp, provider rejected: `set({ loading: false })` then rethrow. -/
def signUpReject (s : AuthState) : AuthState :=
  { s with loading := false }

/-- Modelled from the spec: the store variant with email-verification handling
(the variant exercised by the stores test suite and by the second AuthProvider
variant) is not among the provided source files — only its tests and callers
are. Spec 4.1 signUp: if the returned session is absent, set
`emailVerificationRequired=true`, `pendingVerificationEmail=email`,
`user=null`, `session=null`; if a session is returned, set `user`/`session`
and clear both verification fields; always clear `loading`. -/
def signUpSpecResolve (email : String) (s : AuthState) (d : AuthResult) : AuthState :=
  match d.session with
  | none =>
      { s with user := none, session := none, loading := false
             , emailVerificationRequired := true
             , pendingVerificationEmail := some email }
  | some sess =>
      { s with user := d.user, session := some sess, loading := false
             , emailVerificationRequired := false
             , pendingVerificationEmail := none }

/-- signOut, before the await: `set({ loading: true })`. -/
def signOutStart (s : AuthState) : AuthState :=
  { s with loading := true }

/-- signOut as written in frontend/src/stores/authStore.ts lines 90-94: on
provider success `set({ user: null, session: null, loading: false })`; the
verification fields are not among the keys passed to `set`, so a merge leaves
them as they were. -/
def signOutResolve (s : AuthState) : AuthState :=
  { s with user := none, session := none, loading := false }

/-- signOut, provider rejected: `set({ loading: false })` then rethrow; user
and session stay as they were. -/
def signOutReject (s : AuthState) : AuthState :=
  { s with loading := false }

/-- Modelled from the spec: signOut of the verification-aware store variant
(spec 4.1): on provider success clears `user`, `session`, both verification
fields, and `loading`; confirmed by the stores test suite. -/
def signOutSpecResolve (s : AuthState) : AuthState :=
  { s with user := none, session := none, loading := false
         , emailVerificationRequired := false
         , pendingVerificationEmail := none }

/-- signInWithGoogle, before the await: `set({ loading: true })`. -/
def signInWithGoogleStart (s : AuthState) : AuthState :=
  { s with loading := true }

/-- signInWithGoogle, provider resolved (OAuth redirect initiated): the source
performs no further `set`, so the state is returned unchanged. -/
def signInWithGoogleResolve (s : AuthState) : AuthState := s

/-- signInWithGoogle, provider rejected: `set({ loading: false })`, rethrow. -/
def signInWithGoogleReject (s : AuthState) : AuthState :=
  { s with loading := false }

/-- signInWithFacebook, before the await: `set({ loading: true })`. -/
def signInWithFacebookStart (s : AuthState) : AuthState :=
  { s with loading := true }

/-- signInWithFacebook, provider resolved: no further `set`. -/
def signInWithFacebookResolve (s : AuthState) : AuthState := s

/-- signInWithFacebook, provider rejected: `set({ loading: false })`. -/
def signInWithFacebookReject (s : AuthState) : AuthState :=
  { s with loading := false }

/-- Concrete user used by the repository's store tests
(`{ id: '123', email: 'test@example.com' }`). -/
def testUser : User := { id := "123", email := "test@example.com" }

/-- Concrete session used by the repository's store tests
(`{ access_token: 'token', user: mockUser }`). -/
def testSession : Session := { accessToken := "token", user := testUser }

/-- Store state after `signUp('test@example.com','password123')` resolves with
`{ user: mockUser, session: null }`, evaluated on the signUp that the provided
authStore.ts actually contains. -/
def c1RunResult : AuthState :=
  signUpResolve (signUpStart initialAuthState)
    { user := some testUser, session := none }

/-- Claim C1: on a null-session sign-up the store is required to end with
`emailVerificationRequired=true`, `pendingVerificationEmail` = the submitted
email, and `user=null`. Evaluating the signUp in the provided authStore.ts at
exactly the scenario of the repository's own store test shows the code instead
stores the returned non-null user and never raises the verification flag, so
the code contradicts its own test suite. -/
theorem c1_code_eval :
    c1RunResult.user = some testUser ∧
    c1RunResult.session = none ∧
    c1RunResult.loading = false ∧
    c1RunResult.emailVerificationRequired = false ∧
    c1RunResult.pendingVerificationEmail = none := by
  decide

/-- Store state holding a signed-in user with the verification flags set (the
prior state installed by the repository's signOut store test). -/
def c3PriorState : AuthState :=
  { user := some testUser
  , session := some testSession
  , loading := false
  , initialized := true
  , emailVerificationRequired := true
  , pendingVerificationEmail := some "test@example.com" }

/-- Store state after a successful signOut from `c3PriorState`, evaluated on
the signOut that the provided authStore.ts actually contains. -/
def c3RunResult : AuthState :=
  signOutResolve (signOutStart c3PriorState)

/-- Claim C3: a successful signOut is required to clear the verification
fields regardless of the prior state. Evaluating the signOut in the provided
authStore.ts from a state with the flags set shows it clears `user`,
`session` and `loading` but leaves both verification fields untouched,
contradicting the repository's own signOut store test. -/
theorem c3_code_eval :
    c3RunResult.user = none ∧
    c3RunResult.session = none ∧
    c3RunResult.loading = false ∧
    c3RunResult.emailVerificationRequired = true ∧
    c3RunResult.pendingVerificationEmail = some "test@example.com" := by
  decide

/-- Auth-change events pushed by the provider channel, as matched by the
switch in both AuthProvider variants. -/
inductive AuthEvent where
  | signedIn
  | signedOut
  | tokenRefreshed
  | userUpdated
deriving DecidableEq, Repr

/-- Listener of the first AuthProvider variant (AuthProvider.tsx lines 39-63):
every event sets `session`, `user` (via `session?.user ?? null`) and
`loading=false`; the event switch only logs, so the verification fields are
never touched. -/
def onAuthChangeV1 (_e : AuthEvent) (payload : Option Session) (s : AuthState) : AuthState :=
  { s with session := payload, user := sessionUser payload, loading := false }

/-- Listener of the second AuthProvider variant (AuthProvider.tsx lines
120-148): every event sets `session`, `user`, `loading=false`; on `SIGNED_IN`
and `SIGNED_OUT` it additionally clears `emailVerificationRequired` and
`pendingVerificationEmail`; on `TOKEN_REFRESHED` and `USER_UPDATED` the switch
only logs. -/
def onAuthChangeV2 (e : AuthEvent) (payload : Option Session) (s : AuthState) : AuthState :=
  let base : AuthState :=
    { s with session := payload, user := sessionUser payload, loading := false }
  match e with
  | AuthEvent.signedIn =>
      { base with emailVerificationRequired := false, pendingVerificationEmail := none }
  | AuthEvent.signedOut =>
      { base with emailVerificationRequired := false, pendingVerificationEmail := none }
  | AuthEvent.tokenRefreshed => base
  | AuthEvent.userUpdated => base

/-- Claim C4, counterexample: a `SIGNED_IN` event delivered to the first
listener variant from a state with the verification flags set leaves both
flags exactly as they were — the claim requires the handler to set them to
false/null, so the claim as stated is false for that variant. -/
theorem c4_counterexample :
    (onAuthChangeV1 AuthEvent.signedIn (some testSession) c3PriorState).emailVerificationRequired ≠ false ∧
    (onAuthChangeV1 AuthEvent.signedIn (some testSession) c3PriorState).pendingVerificationEmail ≠ none := by
  decide

/-- Claim C4, amended: in the second AuthProvider variant every `SIGNED_IN` or
`SIGNED_OUT` event sets `session`/`user` from the payload and clears both
verification fields; the first variant sets `session`/`user` (and
`loading=false`) but leaves the verification fields unchanged. -/
theorem c4_amended (s : AuthState) (p : Option Session) :
    ((onAuthChangeV2 AuthEvent.signedIn p s).session = p ∧
     (onAuthChangeV2 AuthEvent.signedIn p s).user = sessionUser p ∧
     (onAuthChangeV2 AuthEvent.signedIn p s).emailVerificationRequired = false ∧
     (onAuthChangeV2 AuthEvent.signedIn p s).pendingVerificationEmail = none) ∧
    ((onAuthChangeV2 AuthEvent.signedOut p s).session = p ∧
     (onAuthChangeV2 AuthEvent.signedOut p s).user = sessionUser p ∧
     (onAuthChangeV2 AuthEvent.signedOut p s).emailVerificationRequired = false ∧
     (onAuthChangeV2 AuthEvent.signedOut p s).pendingVerificationEmail = none) ∧
    ((onAuthChangeV1 AuthEvent.signedIn p s).session = p ∧
     (onAuthChangeV1 AuthEvent.signedIn p s).user = sessionUser p ∧
     (onAuthChangeV1 AuthEvent.signedIn p s).emailVerificationRequired = s.emailVerificationRequired ∧
     (onAuthChangeV1 AuthEvent.signedIn p s).pendingVerificationEmail = s.pendingVerificationEmail) := by
  constructor
  · simp [onAuthChangeV2]
  constructor
  · simp [onAuthChangeV2]
  · simp [onAuthChangeV1]

/-- State with a pending operation (`loading=true`) and the verification flags
set, from which a token-refresh event is delivered. -/
def c5PriorState : AuthState :=
  { user := none
  , session := none
  , loading := true
  , initialized := true
  , emailVerificationRequired := true
  , pendingVerificationEmail := some "test@example.com" }

/-- Claim C5, counterexample: the claim says a `TOKEN_REFRESHED` event updates
session and user only, but delivering one while `loading` is true also flips
`loading` to false in both listener variants, so the handler updates a third
field. -/
theorem c5_counterexample :
    (onAuthChangeV2 AuthEvent.tokenRefreshed (some testSession) c5PriorState).loading ≠ c5PriorState.loading ∧
    (onAuthChangeV1 AuthEvent.tokenRefreshed (some testSession) c5PriorState).loading ≠ c5PriorState.loading := by
  decide

/-- Claim C5, amended: `TOKEN_REFRESHED` and `USER_UPDATED` events update
`session`, `user` and `loading` (set to false); `emailVerificationRequired`,
`pendingVerificationEmail` and `initialized` keep their prior values, in both
listener variants. -/
theorem c5_amended (s : AuthState) (p : Option Session) :
    ((onAuthChangeV2 AuthEvent.tokenRefreshed p s).session = p ∧
     (onAuthChangeV2 AuthEvent.tokenRefreshed p s).user = sessionUser p ∧
     (onAuthChangeV2 AuthEvent.tokenRefreshed p s).loading = false ∧
     (onAuthChangeV2 AuthEvent.tokenRefreshed p s).emailVerificationRequired = s.emailVerificationRequired ∧
     (onAuthChangeV2 AuthEvent.tokenRefreshed p s).pendingVerificationEmail = s.pendingVerificationEmail ∧
     (onAuthChangeV2 AuthEvent.tokenRefreshed p s).initialized = s.initialized) ∧
    ((onAuthChangeV2 AuthEvent.userUpdated p s).emailVerificationRequired = s.emailVerificationRequired ∧
     (onAuthChangeV2 AuthEvent.userUpdated p s).pendingVerificationEmail = s.pendingVerificationEmail) ∧
    ((onAuthChangeV1 AuthEvent.tokenRefreshed p s).emailVerificationRequired = s.emailVerificationRequired ∧
     (onAuthChangeV1 AuthEvent.tokenRefreshed p s).pendingVerificationEmail = s.pendingVerificationEmail) ∧
    ((onAuthChangeV1 AuthEvent.userUpdated p s).emailVerificationRequired = s.emailVerificationRequired ∧
     (onAuthChangeV1 AuthEvent.userUpdated p s).pendingVerificationEmail = s.pendingVerificationEmail) := by
  refine ⟨?_, ?_, ?_, ?_⟩ <;> simp [onAuthChangeV1, onAuthChangeV2]

/-- Possible renderings of the route guard. -/
inductive RenderResult where
  | fallbackView
  | spinner
  | redirectLogin (fromPath : String)
  | content
deriving DecidableEq, Repr

/-- ProtectedRoute as written in the source: the loading placeholder (the
caller-supplied fallback if one was given, else the spinner) is rendered while
`!initialized || loading`; otherwise a null `user` redirects to
`/auth/login` carrying the requested location, and a non-null `user` renders
the children. -/
def protectedRoute (s : AuthState) (hasFallback : Bool) (fromPath : String) : RenderResult :=
  if !s.initialized || s.loading then
    if hasFallback then RenderResult.fallbackView else RenderResult.spinner
  else
    match s.user with
    | none => RenderResult.redirectLogin fromPath
    | some _ => RenderResult.content

/-- Initialized but still-loading unauthenticated store state. -/
def c6GuardState : AuthState :=
  { user := none
  , session := none
  , loading := true
  , initialized := true
  , emailVerificationRequired := false
  , pendingVerificationEmail := none }

/-- Claim C6, counterexample: the claim keys the guard's outcome on
`initialized` and `user` alone, requiring a redirect once `initialized` is
true and `user` is null; but with `initialized=true`, `loading=true`,
`user=null` the guard renders the loading placeholder, not the redirect. -/
theorem c6_counterexample :
    protectedRoute c6GuardState false "/habits" = RenderResult.spinner ∧
    protectedRoute c6GuardState false "/habits" ≠ RenderResult.redirectLogin "/habits" := by
  decide

/-- Claim C6, amended: the guard renders the placeholder (fallback when
supplied, spinner otherwise) whenever `initialized` is false or `loading` is
true; with `initialized` true and `loading` false it redirects to
`/auth/login` carrying the requested location when `user` is null, and
renders the protected content when `user` is non-null. -/
theorem c6_amended (s : AuthState) (hasFallback : Bool) (fromPath : String) :
    (s.initialized = false ∨ s.loading = true →
      protectedRoute s hasFallback fromPath =
        (if hasFallback then RenderResult.fallbackView else RenderResult.spinner)) ∧
    (s.initialized = true → s.loading = false → s.user = none →
      protectedRoute s hasFallback fromPath = RenderResult.redirectLogin fromPath) ∧
    (s.initialized = true → s.loading = false → s.user ≠ none →
      protectedRoute s hasFallback fromPath = RenderResult.content) := by
  refine ⟨?_, ?_, ?_⟩
  · intro h
    rcases h with h | h <;> simp [protectedRoute, h]
  · intro h1 h2 h3
    simp [protectedRoute, h1, h2, h3]
  · intro h1 h2 h3
    rcases hu : s.user with _ | u
    · exact absurd hu h3
    · simp [protectedRoute, h1, h2, hu]

/-- Claim C6, witness for the amended theorem at concrete states: the guard
spins at `c6GuardState` (initialized but loading) and redirects at the same
state once loading has finished. -/
theorem c6_amended_witness :
    protectedRoute c6GuardState false "/habits" =
      (if false then RenderResult.fallbackView else RenderResult.spinner) ∧
    protectedRoute { c6GuardState with loading := false } false "/habits" =
      RenderResult.redirectLogin "/habits" :=
  ⟨(c6_amended c6GuardState false "/habits").1 (Or.inr (by decide)),
   (c6_amended { c6GuardState with loading := false } false "/habits").2.1
     (by decide) (by decide) (by decide)⟩

/-- Claim C8, counterexample: the claim requires `loading` to be false
immediately after every operation completes on the success path and false
immediately before an operation starts; but a successful
`signInWithGoogle` returns with `loading` still true (the source performs no
state update after the OAuth call resolves), and the store is created with
`loading=true`, so the first operation does not start from `loading=false`. -/
theorem c8_counterexample :
    (signInWithGoogleResolve (signInWithGoogleStart initialAuthState)).loading ≠ false ∧
    initialAuthState.loading ≠ false := by
  decide

/-- Claim C8, amended: every async store operation sets `loading=true` when it
starts; `signIn`, `signUp` (both the provided variant and the spec-modelled
verification variant) and `signOut` set `loading=false` on completion on both
the success and the failure path; `signInWithGoogle` and `signInWithFacebook`
reset `loading` only on failure and leave the state unchanged when the OAuth
call resolves, and the store itself is created with `loading=true`. -/
theorem c8_amended (s : AuthState) (d : AuthResult) (email : String) :
    (signInStart s).loading = true ∧
    (signUpStart s).loading = true ∧
    (signOutStart s).loading = true ∧
    (signInWithGoogleStart s).loading = true ∧
    (signInWithFacebookStart s).loading = true ∧
    (signInResolve s d).loading = false ∧
    (signInReject s).loading = false ∧
    (signUpResolve s d).loading = false ∧
    (signUpSpecResolve email s d).loading = false ∧
    (signUpReject s).loading = false ∧
    (signOutResolve s).loading = false ∧
    (signOutSpecResolve s).loading = false ∧
    (signOutReject s).loading = false ∧
    (signInWithGoogleReject s).loading = false ∧
    (signInWithFacebookReject s).loading = false ∧
    signInWithGoogleResolve s = s ∧
    signInWithFacebookResolve s = s ∧
    initialAuthState.loading = true := by
  refine ⟨rfl, rfl, rfl, rfl, rfl, rfl, rfl, rfl, ?_, rfl, rfl, rfl, rfl, rfl, rfl, rfl, rfl, rfl⟩
  cases hs : d.session <;> simp [signUpSpecResolve, hs]

/-- Cross-field invariant claimed by the spec: a raised verification flag
implies there is no session. -/
def verificationInvariant (s : AuthState) : Prop :=
  s.emailVerificationRequired = true → s.session = none

/-- Single store transitions of the verification-aware store (spec-modelled
signUp/signOut, shared signIn/OAuth plumbing, second-variant listener),
restricted to the operations that do not import a session while leaving the
verification flags alone: signIn completion and the
`TOKEN_REFRESHED`/`USER_UPDATED` events are deliberately excluded here. -/
inductive SafeStep : AuthState → AuthState → Prop where
  | signInStartStep (s : AuthState) : SafeStep s (signInStart s)
  | signInRejectStep (s : AuthState) : SafeStep s (signInReject s)
  | signUpStartStep (s : AuthState) : SafeStep s (signUpStart s)
  | signUpOkStep (s : AuthState) (email : String) (d : AuthResult) :
      SafeStep s (signUpSpecResolve email s d)
  | signUpRejectStep (s : AuthState) : SafeStep s (signUpReject s)
  | signOutStartStep (s : AuthState) : SafeStep s (signOutStart s)
  | signOutOkStep (s : AuthState) : SafeStep s (signOutSpecResolve s)
  | signOutRejectStep (s : AuthState) : SafeStep s (signOutReject s)
  | googleStartStep (s : AuthState) : SafeStep s (signInWithGoogleStart s)
  | googleOkStep (s : AuthState) : SafeStep s (signInWithGoogleResolve s)
  | googleRejectStep (s : AuthState) : SafeStep s (signInWithGoogleReject s)
  | facebookStartStep (s : AuthState) : SafeStep s (signInWithFacebookStart s)
  | facebookOkStep (s : AuthState) : SafeStep s (signInWithFacebookResolve s)
  | facebookRejectStep (s : AuthState) : SafeStep s (signInWithFacebookReject s)
  | signedInStep (s : AuthState) (p : Option Session) :
      SafeStep s (onAuthChangeV2 AuthEvent.signedIn p s)
  | signedOutStep (s : AuthState) (p : Option Session) :
      SafeStep s (onAuthChangeV2 AuthEvent.signedOut p s)

/-- Every store transition of the verification-aware store: the restricted
steps plus signIn completion and arbitrary listener events. -/
inductive FullStep : AuthState → AuthState → Prop where
  | safe {s t : AuthState} : SafeStep s t → FullStep s t
  | signInOkStep (s : AuthState) (d : AuthResult) : FullStep s (signInResolve s d)
  | eventStep (s : AuthState) (e : AuthEvent) (p : Option Session) :
      FullStep s (onAuthChangeV2 e p s)

/-- States reachable from the freshly created store using only the restricted
transitions. -/
def SafeReach (s : AuthState) : Prop :=
  Relation.ReflTransGen SafeStep initialAuthState s

/-- States reachable from the freshly created store by any sequence of store
operations and auth-change events. -/
def FullReach (s : AuthState) : Prop :=
  Relation.ReflTransGen FullStep initialAuthState s

/-- Verification-required state reached by a null-session sign-up (the
spec-modelled signUp at the scenario of the repository's store test). -/
def c2VerState : AuthState :=
  signUpSpecResolve "test@example.com" (signUpStart initialAuthState)
    { user := some testUser, session := none }

/-- State reached from `c2VerState` by a successful sign-in: exactly the run
of the repository's test named `should not affect email verification state on
successful sign in`. -/
def c2FinalState : AuthState :=
  signInResolve (signInStart c2VerState)
    { user := some testUser, session := some testSession }

/-- Claim C2, counterexample: a null-session sign-up followed by a successful
sign-in is a reachable run that ends with `emailVerificationRequired=true` and
a non-null session, so the claimed invariant fails; the repository's own
signIn store test asserts exactly this final state. -/
theorem c2_counterexample :
    FullReach c2FinalState ∧
    c2FinalState.emailVerificationRequired = true ∧
    c2FinalState.session ≠ none := by
  refine ⟨?_, by decide, by decide⟩
  have h1 : FullStep initialAuthState (signUpStart initialAuthState) :=
    FullStep.safe (SafeStep.signUpStartStep initialAuthState)
  have h2 : FullStep (signUpStart initialAuthState) c2VerState :=
    FullStep.safe
      (SafeStep.signUpOkStep (signUpStart initialAuthState) "test@example.com"
        { user := some testUser, session := none })
  have h3 : FullStep c2VerState (signInStart c2VerState) :=
    FullStep.safe (SafeStep.signInStartStep c2VerState)
  have h4 : FullStep (signInStart c2VerState) c2FinalState :=
    FullStep.signInOkStep (signInStart c2VerState)
      { user := some testUser, session := some testSession }
  exact Relation.ReflTransGen.tail
    (Relation.ReflTransGen.tail
      (Relation.ReflTransGen.tail
        (Relation.ReflTransGen.tail Relation.ReflTransGen.refl h1) h2) h3) h4

/-- Claim C2, amended: the invariant `emailVerificationRequired=true →
session=null` holds in the initial state and in every state reachable via
signUp (both branches and failure), signOut, the OAuth operations, signIn
start/failure, and `SIGNED_IN`/`SIGNED_OUT` events; it is not preserved by a
successful signIn performed while the flags are set (the spec itself says
sign-in leaves the verification flags untouched, and the repository's signIn
test asserts the violating state), nor by a
`TOKEN_REFRESHED`/`USER_UPDATED` event carrying a non-null session. -/
theorem c2_amended (s : AuthState) (h : SafeReach s) : verificationInvariant s := by
  induction h with
  | refl => intro _; rfl
  | tail _ hstep ih =>
    cases hstep with
    | signInStartStep => exact ih
    | signInRejectStep => exact ih
    | signUpStartStep => exact ih
    | signUpRejectStep => exact ih
    | signOutStartStep => exact ih
    | signOutRejectStep => exact ih
    | googleStartStep => exact ih
    | googleOkStep => exact ih
    | googleRejectStep => exact ih
    | facebookStartStep => exact ih
    | facebookOkStep => exact ih
    | facebookRejectStep => exact ih
    | signUpOkStep email d =>
      cases hd : d.session with
      | none => simp [verificationInvariant, signUpSpecResolve, hd]
      | some sess => simp [verificationInvariant, signUpSpecResolve, hd]
    | signOutOkStep => simp [verificationInvariant, signOutSpecResolve]
    | signedInStep p => simp [verificationInvariant, onAuthChangeV2]
    | signedOutStep p => simp [verificationInvariant, onAuthChangeV2]

/-- Claim C2, witness for the amended theorem: the verification-required state
reached by a null-session sign-up is reachable via restricted steps and
satisfies the invariant. -/
theorem c2_amended_witness : verificationInvariant c2VerState :=
  c2_amended c2VerState
    (Relation.ReflTransGen.tail
      (Relation.ReflTransGen.tail Relation.ReflTransGen.refl
        (SafeStep.signUpStartStep initialAuthState))
      (SafeStep.signUpOkStep (signUpStart initialAuthState) "test@example.com"
        { user := some testUser, session := none }))

/-- Habit row as stored by the backend (backend/src/index.ts `Habit`). -/
structure HabitRow where
  id : String
  name : String
  description : String
  completed : Bool
  userId : String
deriving DecidableEq, Repr

/-- HTTP methods the backend distinguishes. -/
inductive Method where
  | GET
  | POST
  | PATCH
  | PUT
  | DELETE
deriving DecidableEq, Repr

/-- JSON responses the backend produces (constructor carries the fields of the
corresponding JSON body). -/
inductive Response where
  | health
  | habitList (rows : List HabitRow)
  | habitCreated (row : HabitRow)
  | badRequest (err : String)
  | unauthorized (err : String) (msg : Option String)
  | serverError (err : String) (details : Option String)
  | routeNotFound (path : String)
deriving DecidableEq, Repr

/-- HTTP status code attached to each response shape. -/
def Response.statusCode : Response → Nat
  | Response.health => 200
  | Response.habitList _ => 200
  | Response.habitCreated _ => 201
  | Response.badRequest _ => 400
  | Response.unauthorized _ _ => 401
  | Response.serverError _ _ => 500
  | Response.routeNotFound _ => 404

/-- Outcome of the identity provider's `supabase.auth.getUser(token)` call:
it resolves with a user, resolves with a null user, resolves with an error
value, or the awaited promise rejects. -/
inductive ProviderLookup where
  | ok (u : User)
  | noUser
  | errResult
  | raises
deriving DecidableEq, Repr

/-- Outcome of running an express middleware: either a response was written
and `next()` was never called, or `next()` was called with the user attached
to the request. -/
inductive MwOutcome where
  | respond (r : Response)
  | proceed (u : User)
deriving DecidableEq, Repr

/-- Truth of `authHeader && authHeader.startsWith('Bearer ')`, written over
the character list so that it evaluates by kernel reduction. -/
def headerHasBearer : Option String → Bool
  | none => false
  | some h => "Bearer ".toList.isPrefixOf h.toList

/-- authenticateUser middleware (backend/src/middleware/auth.ts lines 18-60):
an absent or non-Bearer header answers 401 `Authentication required`; a
provider error value or null user answers 401 `Invalid token`; a rejected
provider promise lands in the catch block which answers 500
`Authentication failed`; otherwise the user is attached and `next()` runs. -/
def authenticateUser (header : Option String) (lookup : ProviderLookup) : MwOutcome :=
  if !headerHasBearer header then
    MwOutcome.respond (Response.unauthorized "Authentication required"
      (some "Please provide a valid authorization token"))
  else
    match lookup with
    | ProviderLookup.ok u => MwOutcome.proceed u
    | ProviderLookup.noUser =>
        MwOutcome.respond (Response.unauthorized "Invalid token"
          (some "The provided token is invalid or expired"))
    | ProviderLookup.errResult =>
        MwOutcome.respond (Response.unauthorized "Invalid token"
          (some "The provided token is invalid or expired"))
    | ProviderLookup.raises =>
        MwOutcome.respond (Response.serverError "Authentication failed"
          (some "An error occurred while verifying your token"))

/-- Whether a middleware outcome is a 401 response. -/
def MwOutcome.status401 : MwOutcome → Bool
  | MwOutcome.respond r => r.statusCode == 401
  | MwOutcome.proceed _ => false

/-- Claim C10: a rejected provider lookup behind a well-formed Bearer header
makes the middleware answer 500 `Authentication failed` without calling
`next()`, and a 401 arises exactly from an absent/malformed header or a
provider error value / null user. -/
theorem c10_theorem (header : Option String) (lookup : ProviderLookup) :
    (headerHasBearer header = true →
      authenticateUser header ProviderLookup.raises =
        MwOutcome.respond (Response.serverError "Authentication failed"
          (some "An error occurred while verifying your token"))) ∧
    (∀ u : User, authenticateUser header ProviderLookup.raises ≠ MwOutcome.proceed u) ∧
    ((authenticateUser header lookup).status401 = true ↔
      (headerHasBearer header = false ∨
       lookup = ProviderLookup.noUser ∨ lookup = ProviderLookup.errResult)) := by
  refine ⟨?_, ?_, ?_⟩
  · intro hb
    simp [authenticateUser, hb]
  · intro u
    cases hb : headerHasBearer header <;>
      simp [authenticateUser, hb]
  · cases hb : headerHasBearer header <;>
      cases lookup <;>
        simp [authenticateUser, hb, MwOutcome.status401, Response.statusCode]

/-- Claim C10, witness: at the concrete header `Bearer tok` a rejected lookup
yields the 500 response, via the theorem itself. -/
theorem c10_witness :
    authenticateUser (some "Bearer tok") ProviderLookup.raises =
      MwOutcome.respond (Response.serverError "Authentication failed"
        (some "An error occurred while verifying your token")) :=
  (c10_theorem (some "Bearer tok") ProviderLookup.raises).1 (by decide)

/-- Incoming HTTP request as the routed handlers see it. -/
structure ApiRequest where
  method : Method
  path : String
  authHeader : Option String
  bodyName : Option String
  bodyDescription : Option String
deriving DecidableEq, Repr

/-- Outcome of a datastore call made by a route handler. -/
inductive DbResult where
  | ok
  | dbError (msg : String)
deriving DecidableEq, Repr

/-- Truthiness of an optional string under JavaScript coercion (`!name` is
true for an absent field and for the empty string). -/
def jsFalsyStr : Option String → Bool
  | none => true
  | some s => s.isEmpty

/-- GET /api/habits handler body (backend/src/index.ts lines 160-207), run
after `authenticateUser` proceeded: re-checks the attached user id and the
token, then selects the rows (row scoping is delegated to the datastore's
row-level policies, so the model returns the visible rows as given). -/
def getHabitsHandler (uid : Option String) (req : ApiRequest)
    (queryRes : DbResult) (db : List HabitRow) : Response :=
  match uid with
  | none => Response.unauthorized "User not authenticated" none
  | some _ =>
    if jsFalsyStr (req.authHeader.map (fun h => h.drop 7)) then
      Response.unauthorized "Authentication token required" none
    else
      match queryRes with
      | DbResult.ok => Response.habitList db
      | DbResult.dbError m => Response.serverError "Failed to fetch habits" (some m)

/-- POST /api/habits handler body (backend/src/index.ts lines 219-283), run
after `authenticateUser` proceeded: user-id check, then the `!name` guard
answering 400 before any datastore call, then the token guard, then the
insert. Returns the response, the resulting table, and whether an insert was
attempted. -/
def postHabitsHandler (uid : Option String) (req : ApiRequest) (ins : DbResult)
    (newId : String) (db : List HabitRow) : Response × List HabitRow × Bool :=
  match uid with
  | none => (Response.unauthorized "User not authenticated" none, db, false)
  | some u =>
    if jsFalsyStr req.bodyName then
      (Response.badRequest "Habit name is required", db, false)
    else if jsFalsyStr (req.authHeader.map (fun h => h.drop 7)) then
      (Response.unauthorized "Authentication token required" none, db, false)
    else
      match req.bodyName with
      | none => (Response.badRequest "Habit name is required", db, false)
      | some nm =>
        match ins with
        | DbResult.ok =>
          let row : HabitRow :=
            { id := newId, name := nm
            , description := req.bodyDescription.getD ""
            , completed := false, userId := u }
          (Response.habitCreated row, db ++ [row], true)
        | DbResult.dbError m =>
          (Response.serverError "Failed to create habit" (some m), db, true)

/-- Express routing of backend/src/index.ts: the app registers
GET /api/health, GET /api/habits and POST /api/habits (the latter two behind
`authenticateUser`), and a catch-all `app.use` answering 404
`Route not found` with the requested path; no toggle or delete route exists
in either backend variant. -/
def handleRequest (lookup : ProviderLookup) (queryRes ins : DbResult)
    (newId : String) (req : ApiRequest) (db : List HabitRow) :
    Response × List HabitRow × Bool :=
  if req.method == Method.GET && req.path == "/api/health" then
    (Response.health, db, false)
  else if req.method == Method.GET && req.path == "/api/habits" then
    match authenticateUser req.authHeader lookup with
    | MwOutcome.respond r => (r, db, false)
    | MwOutcome.proceed u => (getHabitsHandler (some u.id) req queryRes db, db, false)
  else if req.method == Method.POST && req.path == "/api/habits" then
    match authenticateUser req.authHeader lookup with
    | MwOutcome.respond r => (r, db, false)
    | MwOutcome.proceed u => postHabitsHandler (some u.id) req ins newId db
  else
    (Response.routeNotFound req.path, db, false)

/-- An authenticated toggle request for habit id 1 and a table holding that
habit. -/
def c7Request : ApiRequest :=
  { method := Method.PATCH
  , path := "/api/habits/1/toggle"
  , authHeader := some "Bearer tok"
  , bodyName := none
  , bodyDescription := none }

/-- Table containing the habit the toggle request names, owned by the
authenticated principal. -/
def c7Db : List HabitRow :=
  [{ id := "1", name := "Exercise Daily", description := ""
   , completed := false, userId := "123" }]

/-- Claim C7, counterexample: the authenticated PATCH toggle naming the
existing owned habit does not get the claimed 200 `{data: habit}` — the
backend defines no toggle route, so the request falls through to the
catch-all and is answered 404 `Route not found`. -/
theorem c7_counterexample :
    (handleRequest (ProviderLookup.ok testUser) DbResult.ok DbResult.ok "9"
        c7Request c7Db).1 = Response.routeNotFound "/api/habits/1/toggle" ∧
    ((handleRequest (ProviderLookup.ok testUser) DbResult.ok DbResult.ok "9"
        c7Request c7Db).1).statusCode ≠ 200 := by
  decide

/-- Claim C7, amended: the backend registers no PATCH route at all, so every
PATCH request — in particular /api/habits/:id/toggle, whatever the auth
header, body or table contents — reaches the catch-all handler and is
answered 404 `Route not found` carrying the requested path; only the client
wrapper and the frontend test mocks know the 200 `{data: habit}` shape. -/
theorem c7_amended (lookup : ProviderLookup) (queryRes ins : DbResult)
    (newId p : String) (hdr nm desc : Option String) (db : List HabitRow) :
    handleRequest lookup queryRes ins newId
      { method := Method.PATCH, path := p, authHeader := hdr
      , bodyName := nm, bodyDescription := desc } db =
      (Response.routeNotFound p, db, false) := by
  simp [handleRequest]

/-- Claim C9: an authenticated POST /api/habits whose body carries no name is
answered 400 `Habit name is required`, the table is unchanged, and no insert
is attempted (the guard returns before the datastore call). -/
theorem c9_theorem (u : User) (queryRes ins : DbResult) (newId : String)
    (hdr desc : Option String) (db : List HabitRow)
    (hauth : headerHasBearer hdr = true) :
    handleRequest (ProviderLookup.ok u) queryRes ins newId
      { method := Method.POST, path := "/api/habits", authHeader := hdr
      , bodyName := none, bodyDescription := desc } db =
      (Response.badRequest "Habit name is required", db, false) := by
  simp [handleRequest, authenticateUser, hauth, postHabitsHandler, jsFalsyStr]

/-- Claim C9, witness: the concrete empty-body request of the spec scenario,
via the theorem itself. -/
theorem c9_witness :
    handleRequest (ProviderLookup.ok testUser) DbResult.ok DbResult.ok "9"
      { method := Method.POST, path := "/api/habits"
      , authHeader := some "Bearer tok", bodyName := none
      , bodyDescription := none } [] =
      (Response.badRequest "Habit name is required", [], false) :=
  c9_theorem testUser DbResult.ok DbResult.ok "9" (some "Bearer tok") none []
    (by decide)

end Naitai
